import Mathlib

/-!
Shallow embedding of the event scheduling and broadcast core of the
TPKS-WEBSOCKET repository (services/eventManager.js and the socket
handlers of server.js), together with theorems settling the frozen
claims about it.

Rows returned by the database driver are modelled by an abstract type R;
the external collaborators (the JSON serializer used for fingerprinting
and cache sizing, and the md5 digest) are fields of an ExecEnv record,
since the core treats both as opaque deterministic functions.
-/

namespace TPKS

/-- Per-source execution statistics, from the eventData.stats literal in
EventManager.startEvent / startEventDelayed.  The lastSleepTimestamp
field is absent from the constructor literal (modelled as none) and is
assigned only by goToSleep. -/
structure EventStats where
  totalExecutions : Nat
  successCount : Nat
  errorCount : Nat
  lastExecutionTime : Option Nat
  lastExecutionStatus : Option String
  lastExecutionTimestamp : Option Nat
  skippedCount : Nat
  broadcasts : Nat
  lastSleepTimestamp : Option Nat
  deriving DecidableEq, Repr

/-- The stats literal in startEvent / startEventDelayed. -/
def initialStats : EventStats :=
  { totalExecutions := 0, successCount := 0, errorCount := 0
    lastExecutionTime := none, lastExecutionStatus := none
    lastExecutionTimestamp := none, skippedCount := 0, broadcasts := 0
    lastSleepTimestamp := none }

/-- A configured source (one row of WS_EVENTS). -/
structure EventConfig where
  eventId : Nat
  eventName : String
  sqlQuery : String
  intervalSeconds : Nat
  deriving DecidableEq, Repr

/-- The per-source runtime state (the eventData object).  The timer
handle is modelled by whether a recurring timer is currently armed. -/
structure EventData (R : Type) where
  config : EventConfig
  timer : Bool
  isRunning : Bool
  lastDataHash : Option String
  cachedData : Option (List R)
  cacheTimestamp : Option Nat
  cacheSize : Nat
  cacheTruncated : Bool
  stats : EventStats
  deriving DecidableEq, Repr

/-- The eventData literal of startEvent / startEventDelayed, before the
interval timer is armed. -/
def initialEventData {R : Type} (cfg : EventConfig) : EventData R :=
  { config := cfg, timer := false, isRunning := false, lastDataHash := none
    cachedData := none, cacheTimestamp := none, cacheSize := 0
    cacheTruncated := false, stats := initialStats }

/-- Runtime state right after startEventDelayed has armed the recurring
interval timer. -/
def startEventDelayedState {R : Type} (cfg : EventConfig) : EventData R :=
  { initialEventData cfg with timer := true }

/-- Payload emitted on a successful changed execution:
data, rowCount, timestamp, executionTime keyed by eventName. -/
structure SuccessPayload (R : Type) where
  eventName : String
  data : List R
  rowCount : Nat
  timestamp : Nat
  executionTime : Nat
  deriving DecidableEq, Repr

/-- Payload emitted on execution failure (the object literal passed to
io.emit in the catch block of executeEvent). -/
structure ErrorPayload where
  eventName : String
  error : Bool
  message : String
  timestamp : Nat
  deriving DecidableEq, Repr

/-- A message published on a source channel. -/
inductive Broadcast (R : Type) where
  | success (p : SuccessPayload R)
  | failure (p : ErrorPayload)
  deriving DecidableEq, Repr

/-- One durable UPDATE of WS_EVENTS issued by updateEventStats. -/
structure StatsWrite where
  eventId : Nat
  executionTime : Nat
  status : String
  deriving DecidableEq, Repr

deriving instance DecidableEq for Except

/-- Result of updateEventStats: the UPDATE statements issued to the
database, and what the method lets escape to its caller. -/
structure StatsUpdateResult where
  attempted : List StatsWrite
  outcome : Except String Unit
  deriving DecidableEq, Repr

/-- The raw durable write inside updateEventStats.  The driver may fail
(persistFails); either way the UPDATE was issued against the pool. -/
def statsUpdateExecute (persistFails : Bool) (eventId executionTime : Nat)
    (status : String) : StatsWrite × Except String Unit :=
  (⟨eventId, executionTime, status⟩,
    if persistFails then Except.error "Error updating event stats" else Except.ok ())

/-- EventManager.updateEventStats: skips the database entirely unless
status is error; a driver failure during the write is caught, logged and
not re-thrown. -/
def updateEventStats (persistFails : Bool) (eventId executionTime : Nat)
    (status : String) : StatsUpdateResult :=
  if status ≠ "error" then ⟨[], Except.ok ()⟩
  else
    let (w, res) := statsUpdateExecute persistFails eventId executionTime status
    match res with
    | Except.ok _ => ⟨[w], Except.ok ()⟩
    | Except.error _ => ⟨[w], Except.ok ()⟩

/-- Configuration and external collaborators of executeEvent: the JSON
serializer, the md5 hex digest, and MAX_EVENT_CACHE_MB. -/
structure ExecEnv (R : Type) where
  serialize : List R → String
  md5hex : String → String
  maxCacheSize : Nat

/-- MAX_EVENT_CACHE_MB defaults to 10 (constructor line). -/
def defaultMaxCacheSizeMB : Nat := 10

/-- MAX_STAGGER_DELAY defaults to 10000 ms (constructor line). -/
def defaultMaxStaggerDelay : Nat := 10000

/-- SLEEP_MODE_DELAY defaults to 30000 ms (constructor line). -/
def defaultSleepDelay : Nat := 30000

/-- maxSizeBytes of executeEvent: this.maxCacheSize * 1024 * 1024. -/
def ExecEnv.maxSizeBytes {R : Type} (env : ExecEnv R) : Nat :=
  env.maxCacheSize * 1024 * 1024

/-- The change-detection fingerprint:
crypto.createHash of the JSON serialization of the rows. -/
def ExecEnv.dataHash {R : Type} (env : ExecEnv R) (rows : List R) : String :=
  env.md5hex (env.serialize rows)

/-- Outcome of the synchronous prefix of executeEvent, up to the point
where the query is awaited. -/
inductive StartResult (R : Type) where
  | skipped (d : EventData R)
  | started (d : EventData R)
  deriving DecidableEq, Repr

/-- The overlap guard at the top of executeEvent: if an execution is in
flight, count the tick as skipped and return; otherwise set isRunning
and count the execution before the query starts. -/
def executeEventStart {R : Type} (d : EventData R) : StartResult R :=
  if d.isRunning then
    StartResult.skipped
      { d with stats := { d.stats with skippedCount := d.stats.skippedCount + 1 } }
  else
    StartResult.started
      { d with
        isRunning := true,
        stats := { d.stats with totalExecutions := d.stats.totalExecutions + 1 } }

/-- Everything executeEvent produces besides the new runtime state. -/
structure ExecOutput (R : Type) where
  d : EventData R
  broadcasts : List (Broadcast R)
  statsWrites : List StatsWrite
  deriving DecidableEq, Repr

/-- The rest of executeEvent, resumed after the awaited query settles
with qres.  now is the wall clock at completion, executionTime the
measured duration.  Mirrors the try/catch/finally of the source:
fingerprint comparison and cache replacement on change, success stats in
memory only, error stats mirrored durably, generic error broadcast, and
isRunning reset on every path. -/
def executeEventFinish {R : Type} (env : ExecEnv R) (eventId : Nat)
    (persistFails : Bool) (d : EventData R) (qres : Except String (List R))
    (now executionTime : Nat) : ExecOutput R :=
  let eventName := d.config.eventName
  match qres with
  | Except.ok rows =>
      let dataHash := env.dataHash rows
      let (d2, bs) :=
        if d.lastDataHash ≠ some dataHash then
          let dHash := { d with
            lastDataHash := some dataHash,
            stats := { d.stats with broadcasts := d.stats.broadcasts + 1 } }
          let dataString := env.serialize rows
          let dataSizeBytes := dataString.utf8ByteSize
          let dCache :=
            if dataSizeBytes > env.maxSizeBytes then
              { dHash with
                cachedData := some (rows.take 100),
                cacheTruncated := true,
                cacheSize := (env.serialize (rows.take 100)).utf8ByteSize }
            else
              { dHash with
                cachedData := some rows,
                cacheTruncated := false,
                cacheSize := dataSizeBytes }
          ({ dCache with cacheTimestamp := some now },
            [Broadcast.success
               { eventName := eventName, data := rows, rowCount := rows.length
                 timestamp := now, executionTime := executionTime }])
        else (d, [])
      let d3 := { d2 with
        stats := { d2.stats with
          successCount := d2.stats.successCount + 1,
          lastExecutionTime := some executionTime,
          lastExecutionStatus := some "success",
          lastExecutionTimestamp := some now } }
      ⟨{ d3 with isRunning := false }, bs, []⟩
  | Except.error _ =>
      let d2 := { d with
        stats := { d.stats with
          errorCount := d.stats.errorCount + 1,
          lastExecutionTime := some executionTime,
          lastExecutionStatus := some "error",
          lastExecutionTimestamp := some now } }
      let su := updateEventStats persistFails eventId executionTime "error"
      ⟨{ d2 with isRunning := false },
        [Broadcast.failure
           { eventName := eventName, error := true
             message := "Data temporarily unavailable", timestamp := now }],
        su.attempted⟩

/-- One whole run of executeEvent for a tick that found the query
settling with qres. -/
def executeEvent {R : Type} (env : ExecEnv R) (eventId : Nat)
    (persistFails : Bool) (d : EventData R) (qres : Except String (List R))
    (now executionTime : Nat) : ExecOutput R :=
  match executeEventStart d with
  | StartResult.skipped d1 => ⟨d1, [], []⟩
  | StartResult.started d1 => executeEventFinish env eventId persistFails d1 qres now executionTime

/-- Whitespace for the purposes of the channel-name regex. -/
def isWsChar (c : Char) : Bool :=
  c = ' ' ∨ c = '\t' ∨ c = '\n' ∨ c = '\r' ∨ c.val = 11 ∨ c.val = 12

/-- Replace every maximal run of whitespace with a single underscore;
the flag records whether the previous character was inside a run. -/
def collapseWsAux : Bool → List Char → List Char
  | _, [] => []
  | prevWs, c :: cs =>
    if isWsChar c then
      if prevWs then collapseWsAux true cs
      else '_' :: collapseWsAux true cs
    else c :: collapseWsAux false cs

/-- The regex replace of getEventChannel on the character list. -/
def replaceWsRuns (l : List Char) : List Char := collapseWsAux false l

/-- EventManager.getEventChannel: uppercase, whitespace runs to a single
underscore. -/
def getEventChannel (eventName : String) : String :=
  String.mk (replaceWsRuns (eventName.toList.map Char.toUpper))

/-- The object returned by EventManager.getCachedData when a cache
entry exists. -/
structure CachedView (R : Type) where
  eventName : String
  data : List R
  rowCount : Nat
  timestamp : Option Nat
  age : Option Nat
  truncated : Bool
  cacheSize : Nat
  deriving DecidableEq, Repr

/-- EventManager.getCachedData: null when the event has no cached data,
otherwise the cache entry with its age relative to now. -/
def getCachedData {R : Type} (now : Nat) (d : EventData R) : Option (CachedView R) :=
  match d.cachedData with
  | none => none
  | some rows =>
      some { eventName := d.config.eventName, data := rows, rowCount := rows.length,
             timestamp := d.cacheTimestamp,
             age := d.cacheTimestamp.map (fun t => now - t),
             truncated := d.cacheTruncated, cacheSize := d.cacheSize }

/-- EventManager.getCachedDataByName: scan the events map in insertion
order and return getCachedData of the first event whose name matches. -/
def getCachedDataByName {R : Type} (now : Nat) (events : List (EventData R))
    (eventName : String) : Option (CachedView R) :=
  match events.find? (fun d => d.config.eventName = eventName) with
  | none => none
  | some d => getCachedData now d

/-- The methods the EventManager class actually defines
(services/eventManager.js, the only EventManager in the repository). -/
def eventManagerMethods : List String :=
  ["constructor", "loadEvents", "loadEventsStaggered", "startEvent",
   "startEventDelayed", "executeEvent", "updateEventStats", "stopEvent",
   "stopAll", "reload", "getEventChannel", "getAllStats", "getEventStats",
   "getCachedData", "getCachedDataByName", "getMemoryStats",
   "checkSleepMode", "goToSleep", "wakeUp"]

/-- Calling a method on the eventManager object: a TypeError when the
class does not define it. -/
def callEventManagerMethod (name : String) : Except String Unit :=
  if name ∈ eventManagerMethods then Except.ok ()
  else Except.error (String.append (String.append "eventManager." name) " is not a function")

/-- What the REQUEST_INITIAL_STATE handler does for one requested event
name. -/
inductive HydrationOutcome (R : Type) where
  | sentCache (channel : String) (view : CachedView R)
  | triggered
  | errorEmitted (message : String)
  deriving DecidableEq, Repr

/-- One iteration of the for-loop in the REQUEST_INITIAL_STATE handler
of server.js: emit the cached snapshot on the derived channel when a
cache exists; otherwise call eventManager.triggerEventByName, whose
absence from the class raises a TypeError that the surrounding catch
turns into a rate-limit error emission. -/
def handleInitialStateEvent {R : Type} (now : Nat) (events : List (EventData R))
    (eventName : String) : HydrationOutcome R :=
  match getCachedDataByName now events eventName with
  | some cached => HydrationOutcome.sentCache (getEventChannel eventName) cached
  | none =>
      match callEventManagerMethod "triggerEventByName" with
      | Except.ok _ => HydrationOutcome.triggered
      | Except.error _ => HydrationOutcome.errorEmitted "Request rate limit exceeded"

/-- Math.min over the intervalSeconds of a nonempty config list
(loadEventsStaggered and wakeUp both guard the empty case). -/
def smallestInterval : List EventConfig → Nat
  | [] => 0
  | c :: cs => cs.foldl (fun m e => min m e.intervalSeconds) c.intervalSeconds

/-- The stagger delay computed by loadEventsStaggered:
max(min(smallestInterval*1000/N, maxStaggerDelay/N), 500), in exact
(JS floating) arithmetic over the rationals. -/
def staggerDelay (configs : List EventConfig) (maxStaggerDelay : ℚ) : ℚ :=
  max (min ((smallestInterval configs * 1000 : ℚ) / (configs.length : ℚ))
           (maxStaggerDelay / (configs.length : ℚ)))
      500

/-- The stagger delay computed inside wakeUp (textually the same
expression as in loadEventsStaggered). -/
def wakeUpStaggerDelay (configs : List EventConfig) (maxStaggerDelay : ℚ) : ℚ :=
  max (min ((smallestInterval configs * 1000 : ℚ) / (configs.length : ℚ))
           (maxStaggerDelay / (configs.length : ℚ)))
      500

/-- Modelled from the spec: the staggered-start delay formula
d = max(min(smallestInterval_ms / N, maxStaggerBudget_ms / N), 500ms),
stated on the already-extracted smallest interval in milliseconds. -/
def specStaggerDelay (smallestIntervalMs n maxBudgetMs : ℚ) : ℚ :=
  max (min (smallestIntervalMs / n) (maxBudgetMs / n)) 500

/-- The setTimeout offsets of the cold-start stagger loop: index i is
scheduled at i * staggerDelay. -/
def coldStartOffsets (configs : List EventConfig) (maxStaggerDelay : ℚ) : List ℚ :=
  (List.range configs.length).map (fun (i : Nat) => (i : ℚ) * staggerDelay configs maxStaggerDelay)

/-- In wakeUp, source i has its recurring timer armed at offset
i * staggerDelay. -/
def wakeTimerArmOffset (i : Nat) (d : ℚ) : ℚ := (i : ℚ) * d

/-- In wakeUp, source i runs its one refresh execution at offset
i * staggerDelay + jitter, where jitter = Math.random() * 2000. -/
def wakeFirstExecOffset (i : Nat) (d jitter : ℚ) : ℚ := (i : ℚ) * d + jitter

/-- The scheduler-global state consulted by the sleep/wake controller:
the sleeping flag, the pending sleep-debounce timer (as its firing
deadline), and the per-source runtime states in insertion order. -/
structure MgrState (R : Type) where
  isSleeping : Bool
  sleepDeadline : Option Nat
  events : List (EventData R)
  deriving DecidableEq, Repr

/-- The per-event body of the goToSleep loop: clear an armed interval
timer and record the sleep timestamp in the stats object. -/
def sleepTransform {R : Type} (now : Nat) (d : EventData R) : EventData R :=
  if d.timer then
    { d with timer := false,
             stats := { d.stats with lastSleepTimestamp := some now } }
  else d

/-- EventManager.goToSleep: a no-op when already sleeping, otherwise set
the sleeping flag and pause every armed per-source timer while keeping
the event entries, their caches and their stats objects in the map. -/
def goToSleep {R : Type} (now : Nat) (s : MgrState R) : MgrState R :=
  if s.isSleeping then s
  else { s with isSleeping := true, events := s.events.map (sleepTransform now) }

/-- The synchronous effect of EventManager.wakeUp on the state consulted
by checkSleepMode: clear the sleeping flag (the staggered, jittered
timer re-arming it schedules is modelled by wakeUpStaggerDelay,
wakeTimerArmOffset and wakeFirstExecOffset). -/
def wakeUpState {R : Type} (s : MgrState R) : MgrState R :=
  if ¬ s.isSleeping then s else { s with isSleeping := false }

/-- EventManager.checkSleepMode, invoked with the current client count:
wake when clients are connected while sleeping; (re)arm the debounce
timer when no clients are connected while awake; cancel any pending
debounce timer when clients are connected. -/
def checkSleepMode {R : Type} (enabled : Bool) (sleepDelay : Nat)
    (now clients : Nat) (s : MgrState R) : MgrState R :=
  if ¬ enabled then s
  else
    let s1 := if 0 < clients ∧ s.isSleeping then wakeUpState s else s
    let s2 := if clients = 0 ∧ ¬ s1.isSleeping then
        { s1 with sleepDeadline := some (now + sleepDelay) }
      else s1
    if 0 < clients ∧ s2.sleepDeadline.isSome then { s2 with sleepDeadline := none }
    else s2

/-- The debounce timer firing at its deadline: the callback re-checks
the client count and goes to sleep only if it is still zero. -/
def fireSleepTimer {R : Type} (now clients : Nat) (s : MgrState R) : MgrState R :=
  match s.sleepDeadline with
  | none => s
  | some _ =>
      let s1 := { s with sleepDeadline := none }
      if clients = 0 then goToSleep now s1 else s1

/-- An observable step of the sleep/wake controller: a connect or
disconnect evaluation at a given time with a given client count, or the
pending debounce timer firing while the count has a given value. -/
inductive SleepStep where
  | check (now clients : Nat)
  | fire (now clients : Nat)
  deriving DecidableEq, Repr

/-- Interpret one controller step. -/
def sleepStep {R : Type} (enabled : Bool) (sleepDelay : Nat) (s : MgrState R) :
    SleepStep → MgrState R
  | SleepStep.check now clients => checkSleepMode enabled sleepDelay now clients s
  | SleepStep.fire now clients => fireSleepTimer now clients s

/-- Run a sequence of controller steps. -/
def sleepRun {R : Type} (enabled : Bool) (sleepDelay : Nat) (s : MgrState R)
    (tr : List SleepStep) : MgrState R :=
  tr.foldl (sleepStep enabled sleepDelay) s

/-- True when a step is a connect/disconnect evaluation that sees a
positive subscriber count (timer firings unconstrained). -/
def checkPositive : SleepStep → Bool
  | SleepStep.check _ clients => decide (0 < clients)
  | SleepStep.fire _ _ => true


/-- A sample source, taken from the end-to-end scenario of the spec:
display name Vessel Alongside, interval 5 seconds. -/
def cfgS : EventConfig := ⟨1, "Vessel Alongside", "SELECT 1 FROM DUAL", 5⟩

/-- A concrete execution environment over string rows with the default
10 MB cache ceiling. -/
def envS : ExecEnv String := ⟨fun rows => String.intercalate ";" rows, fun s => s, 10⟩

/-- A concrete execution environment whose cache ceiling is zero bytes,
so that any nonempty result exceeds it. -/
def envS0 : ExecEnv String := ⟨fun rows => String.intercalate ";" rows, fun s => s, 0⟩

/-- A freshly started runtime state for cfgS. -/
def freshS : EventData String := startEventDelayedState cfgS

/-- A runtime state whose execution is still in flight. -/
def runningS : EventData String := { startEventDelayedState cfgS with isRunning := true }

/-- Twenty-one copies of cfgS, enough sources for the 500 ms stagger
floor to push the total stagger span past the default budget. -/
def manyCfgs : List EventConfig := List.replicate 21 cfgS

/-- A scheduler state that is awake, has no pending debounce timer, and
owns one source with an armed recurring timer. -/
def sleepCexState : MgrState String := ⟨false, none, [startEventDelayedState cfgS]⟩


/-- Running executeEvent on a state with no execution in flight is the
finish phase applied to the state with the running flag set and the
execution counted. -/
theorem executeEvent_not_running {R : Type} (env : ExecEnv R) (eventId : Nat)
    (persistFails : Bool) (d : EventData R) (h : d.isRunning = false)
    (qres : Except String (List R)) (now dur : Nat) :
    executeEvent env eventId persistFails d qres now dur
      = executeEventFinish env eventId persistFails
          { d with isRunning := true,
                   stats := { d.stats with totalExecutions := d.stats.totalExecutions + 1 } }
          qres now dur := by
  simp [executeEvent, executeEventStart, h]

/-- Claim C1: the EventManager class defines no triggerEventByName
method, so the hydration path that finds no cache for a requested event
name cannot trigger an immediate query: the method call raises a
TypeError that the handler reports as a rate-limit error instead. -/
theorem trigger_event_by_name_missing :
    "triggerEventByName" ∉ eventManagerMethods
    ∧ getCachedDataByName (R := String) 0 [startEventDelayedState cfgS] "Vessel Alongside" = none
    ∧ callEventManagerMethod "triggerEventByName"
        = Except.error "eventManager.triggerEventByName is not a function"
    ∧ handleInitialStateEvent (R := String) 0 [startEventDelayedState cfgS] "Vessel Alongside"
        = HydrationOutcome.errorEmitted "Request rate limit exceeded"
    ∧ getEventChannel "Vessel Alongside" = "VESSEL_ALONGSIDE" := by decide

/-- Claim C2: a tick arriving while an execution of the same source is
in flight only increments skippedCount (no query, no broadcast, no
durable write, nothing else changed); N such ticks add exactly N; no
second execution can start while one is in flight; a non-skipped
execution sets the running flag and counts the execution before the
query, and the flag is false again after every finish path. -/
theorem exec_overlap_guard {R : Type} (env : ExecEnv R) (eventId : Nat)
    (persistFails : Bool) (qres : Except String (List R)) (now dur : Nat) :
    (∀ d : EventData R, d.isRunning = true →
      executeEvent env eventId persistFails d qres now dur
        = ⟨{ d with stats := { d.stats with skippedCount := d.stats.skippedCount + 1 } }, [], []⟩)
    ∧ (∀ d : EventData R, d.isRunning = true → ∀ n : Nat,
        (fun s => (executeEvent env eventId persistFails s qres now dur).d)^[n] d
          = { d with stats := { d.stats with skippedCount := d.stats.skippedCount + n } })
    ∧ (∀ d : EventData R, d.isRunning = true →
        ∀ d1, executeEventStart d ≠ StartResult.started d1)
    ∧ (∀ d : EventData R, d.isRunning = false →
        ∃ d1, executeEventStart d = StartResult.started d1 ∧ d1.isRunning = true
          ∧ d1.stats.totalExecutions = d.stats.totalExecutions + 1
          ∧ (executeEventFinish env eventId persistFails d1 qres now dur).d.isRunning = false) := by
  refine ⟨?_, ?_, ?_, ?_⟩
  · intro d h
    simp [executeEvent, executeEventStart, h]
  · intro d h n
    induction n generalizing d with
    | zero => simp
    | succ n ih =>
        rw [Function.iterate_succ_apply]
        have h1 : (executeEvent env eventId persistFails d qres now dur).d
            = { d with stats := { d.stats with skippedCount := d.stats.skippedCount + 1 } } := by
          simp [executeEvent, executeEventStart, h]
        have h2 := ih { d with stats := { d.stats with skippedCount := d.stats.skippedCount + 1 } } h
        show (fun s => (executeEvent env eventId persistFails s qres now dur).d)^[n]
            ((executeEvent env eventId persistFails d qres now dur).d) = _
        rw [h1, h2]
        have h3 : d.stats.skippedCount + 1 + n = d.stats.skippedCount + (n + 1) := by omega
        simp [h3]
  · intro d h d1
    simp [executeEventStart, h]
  · intro d h
    have hs : executeEventStart d = StartResult.started
        { d with isRunning := true,
                 stats := { d.stats with totalExecutions := d.stats.totalExecutions + 1 } } := by
      simp [executeEventStart, h]
    refine ⟨_, hs, rfl, rfl, ?_⟩
    cases qres with
    | ok rows => simp only [executeEventFinish]
    | error e => rfl

/-- Witness for exec_overlap_guard at a concrete in-flight state. -/
theorem exec_overlap_guard_witness :
    runningS.isRunning = true
    ∧ executeEvent envS 1 false runningS (Except.ok ["r1"]) 7 3
        = ⟨{ runningS with stats := { runningS.stats with skippedCount := runningS.stats.skippedCount + 1 } }, [], []⟩ :=
  ⟨rfl, (exec_overlap_guard envS 1 false (Except.ok ["r1"]) 7 3).1 runningS rfl⟩

/-- Claim C3: the fingerprint is a deterministic function of the rows;
with no prior fingerprint a successful execution always broadcasts and
increments the broadcasts counter; with a stored prior fingerprint a
broadcast happens exactly when the new fingerprint differs, and an
identical fingerprint broadcasts nothing and leaves the counter
unchanged. -/
theorem change_detection_broadcast {R : Type} (env : ExecEnv R) (eventId : Nat)
    (persistFails : Bool) :
    (∀ rows1 rows2 : List R, rows1 = rows2 → env.dataHash rows1 = env.dataHash rows2)
    ∧ (∀ d : EventData R, d.isRunning = false → d.lastDataHash = none →
        ∀ (rows : List R) (now dur : Nat),
        (executeEvent env eventId persistFails d (Except.ok rows) now dur).broadcasts
          = [Broadcast.success
              { eventName := d.config.eventName, data := rows, rowCount := rows.length,
                timestamp := now, executionTime := dur }]
        ∧ (executeEvent env eventId persistFails d (Except.ok rows) now dur).d.stats.broadcasts
            = d.stats.broadcasts + 1)
    ∧ (∀ d : EventData R, d.isRunning = false → ∀ (hprev : String) (rows : List R) (now dur : Nat),
        d.lastDataHash = some hprev →
        (((executeEvent env eventId persistFails d (Except.ok rows) now dur).broadcasts ≠ []
          ∧ (executeEvent env eventId persistFails d (Except.ok rows) now dur).d.stats.broadcasts
              = d.stats.broadcasts + 1)
          ↔ env.dataHash rows ≠ hprev)
        ∧ (env.dataHash rows = hprev →
            (executeEvent env eventId persistFails d (Except.ok rows) now dur).broadcasts = []
            ∧ (executeEvent env eventId persistFails d (Except.ok rows) now dur).d.stats.broadcasts
                = d.stats.broadcasts)) := by
  refine ⟨fun r1 r2 hr => by rw [hr], ?_, ?_⟩
  · intro d h hnone rows now dur
    rw [executeEvent_not_running env eventId persistFails d h]
    simp only [executeEventFinish]
    simp [hnone, apply_ite]
  · intro d h hprev rows now dur hsome
    by_cases hc : env.dataHash rows = hprev
    · constructor
      · rw [executeEvent_not_running env eventId persistFails d h]
        simp only [executeEventFinish]
        simp [hsome, hc]
      · intro _
        rw [executeEvent_not_running env eventId persistFails d h]
        simp only [executeEventFinish]
        simp [hsome, hc]
    · have hc2 : ¬ hprev = env.dataHash rows := fun hh => hc hh.symm
      constructor
      · rw [executeEvent_not_running env eventId persistFails d h]
        simp only [executeEventFinish]
        simp [hsome, hc, hc2, apply_ite]
      · intro hcc
        exact absurd hcc hc

/-- Witness for change_detection_broadcast on a first execution. -/
theorem change_detection_broadcast_witness :
    (freshS.isRunning = false ∧ freshS.lastDataHash = none)
    ∧ (executeEvent envS 1 false freshS (Except.ok ["r1"]) 7 3).broadcasts
        = [Broadcast.success
            { eventName := freshS.config.eventName, data := ["r1"], rowCount := 1,
              timestamp := 7, executionTime := 3 }] :=
  ⟨⟨rfl, rfl⟩,
    (((change_detection_broadcast envS 1 false).2.1 freshS rfl rfl ["r1"] 7 3).1 : _)⟩

/-- Claim C4: on a successful changed execution, a serialized size at or
under the ceiling (maxCacheSize megabytes, default 10) stores the rows
verbatim untruncated with that byte size, and a size over the ceiling
stores exactly the first 100 rows, truncated, recording the byte size of
the truncated payload. -/
theorem bounded_cache_store {R : Type} (env : ExecEnv R) (eventId : Nat)
    (persistFails : Bool) (d : EventData R) (h : d.isRunning = false)
    (rows : List R) (now dur : Nat)
    (hch : d.lastDataHash ≠ some (env.dataHash rows)) :
    env.maxSizeBytes = env.maxCacheSize * 1024 * 1024
    ∧ (env.maxCacheSize = defaultMaxCacheSizeMB → env.maxSizeBytes = 10485760)
    ∧ ((env.serialize rows).utf8ByteSize ≤ env.maxSizeBytes →
        (executeEvent env eventId persistFails d (Except.ok rows) now dur).d.cachedData = some rows
        ∧ (executeEvent env eventId persistFails d (Except.ok rows) now dur).d.cacheTruncated = false
        ∧ (executeEvent env eventId persistFails d (Except.ok rows) now dur).d.cacheSize
            = (env.serialize rows).utf8ByteSize)
    ∧ (¬ (env.serialize rows).utf8ByteSize ≤ env.maxSizeBytes →
        (executeEvent env eventId persistFails d (Except.ok rows) now dur).d.cachedData
            = some (rows.take 100)
        ∧ (executeEvent env eventId persistFails d (Except.ok rows) now dur).d.cacheTruncated = true
        ∧ (executeEvent env eventId persistFails d (Except.ok rows) now dur).d.cacheSize
            = (env.serialize (rows.take 100)).utf8ByteSize) := by
  refine ⟨rfl, ?_, ?_, ?_⟩
  · intro hdef
    simp [ExecEnv.maxSizeBytes, hdef, defaultMaxCacheSizeMB]
  · intro hsize
    rw [executeEvent_not_running env eventId persistFails d h]
    simp only [executeEventFinish]
    have hlt : ¬ env.maxSizeBytes < (env.serialize rows).utf8ByteSize := by omega
    simp [hch, hlt]
  · intro hsize
    rw [executeEvent_not_running env eventId persistFails d h]
    simp only [executeEventFinish]
    have hlt : env.maxSizeBytes < (env.serialize rows).utf8ByteSize := by omega
    simp [hch, hlt]

/-- Witness for bounded_cache_store on a small result set. -/
theorem bounded_cache_store_witness :
    (freshS.isRunning = false ∧ freshS.lastDataHash ≠ some (envS.dataHash ["r1"])
      ∧ (envS.serialize ["r1"]).utf8ByteSize ≤ envS.maxSizeBytes)
    ∧ (executeEvent envS 1 false freshS (Except.ok ["r1"]) 7 3).d.cachedData = some ["r1"]
    ∧ (executeEvent envS 1 false freshS (Except.ok ["r1"]) 7 3).d.cacheTruncated = false :=
  ⟨⟨rfl, by decide, by decide⟩,
    ((bounded_cache_store envS 1 false freshS rfl ["r1"] 7 3 (by decide)).2.2.1 (by decide)).1,
    (((bounded_cache_store envS 1 false freshS rfl ["r1"] 7 3 (by decide)).2.2.1 (by decide)).2).1⟩

/-- Claim C5: a failed execution and an unchanged successful execution
leave the cache entry (rows, capture timestamp, byte size, truncated
flag) and the stored fingerprint exactly as they were; only a changed
successful execution replaces the entry, stamping the new capture time
and fingerprint. -/
theorem cache_frame_effect {R : Type} (env : ExecEnv R) (eventId : Nat)
    (persistFails : Bool) (d : EventData R) (h : d.isRunning = false) (now dur : Nat) :
    (∀ e : String,
        (executeEvent env eventId persistFails d (Except.error e) now dur).d.cachedData = d.cachedData
        ∧ (executeEvent env eventId persistFails d (Except.error e) now dur).d.cacheTimestamp = d.cacheTimestamp
        ∧ (executeEvent env eventId persistFails d (Except.error e) now dur).d.cacheSize = d.cacheSize
        ∧ (executeEvent env eventId persistFails d (Except.error e) now dur).d.cacheTruncated = d.cacheTruncated
        ∧ (executeEvent env eventId persistFails d (Except.error e) now dur).d.lastDataHash = d.lastDataHash)
    ∧ (∀ rows : List R, d.lastDataHash = some (env.dataHash rows) →
        (executeEvent env eventId persistFails d (Except.ok rows) now dur).d.cachedData = d.cachedData
        ∧ (executeEvent env eventId persistFails d (Except.ok rows) now dur).d.cacheTimestamp = d.cacheTimestamp
        ∧ (executeEvent env eventId persistFails d (Except.ok rows) now dur).d.cacheSize = d.cacheSize
        ∧ (executeEvent env eventId persistFails d (Except.ok rows) now dur).d.cacheTruncated = d.cacheTruncated
        ∧ (executeEvent env eventId persistFails d (Except.ok rows) now dur).d.lastDataHash = d.lastDataHash)
    ∧ (∀ rows : List R, d.lastDataHash ≠ some (env.dataHash rows) →
        (executeEvent env eventId persistFails d (Except.ok rows) now dur).d.cacheTimestamp = some now
        ∧ (executeEvent env eventId persistFails d (Except.ok rows) now dur).d.lastDataHash
            = some (env.dataHash rows)
        ∧ (executeEvent env eventId persistFails d (Except.ok rows) now dur).d.cachedData
            = (if env.maxSizeBytes < (env.serialize rows).utf8ByteSize
               then some (rows.take 100) else some rows)) := by
  refine ⟨?_, ?_, ?_⟩
  · intro e
    rw [executeEvent_not_running env eventId persistFails d h]
    simp [executeEventFinish]
  · intro rows hsame
    rw [executeEvent_not_running env eventId persistFails d h]
    simp only [executeEventFinish]
    simp [hsame]
  · intro rows hch
    rw [executeEvent_not_running env eventId persistFails d h]
    simp only [executeEventFinish]
    by_cases hbig : env.maxSizeBytes < (env.serialize rows).utf8ByteSize
    · simp [hch, hbig]
    · simp [hch, hbig]

/-- Witness for cache_frame_effect on a failed execution. -/
theorem cache_frame_effect_witness :
    freshS.isRunning = false
    ∧ (executeEvent envS 1 false freshS (Except.error "ORA-00001") 7 3).d.cachedData
        = freshS.cachedData :=
  ⟨rfl, ((cache_frame_effect envS 1 false freshS rfl 7 3).1 "ORA-00001").1⟩

/-- Claim C6: every failed execution broadcasts exactly the payload with
the event name, the error flag, the fixed generic message and the
timestamp; the payload does not depend on the underlying driver error,
so two failures with different driver errors broadcast identically. -/
theorem error_broadcast_sanitized {R : Type} (env : ExecEnv R) (eventId : Nat)
    (persistFails : Bool) (d : EventData R) (h : d.isRunning = false) :
    ∀ (e1 e2 : String) (now dur1 dur2 : Nat),
      (executeEvent env eventId persistFails d (Except.error e1) now dur1).broadcasts
        = [Broadcast.failure
            { eventName := d.config.eventName, error := true,
              message := "Data temporarily unavailable", timestamp := now }]
      ∧ (executeEvent env eventId persistFails d (Except.error e1) now dur1).broadcasts
          = (executeEvent env eventId persistFails d (Except.error e2) now dur2).broadcasts := by
  intro e1 e2 now dur1 dur2
  rw [executeEvent_not_running env eventId persistFails d h,
      executeEvent_not_running env eventId persistFails d h]
  exact ⟨rfl, rfl⟩

/-- Witness for error_broadcast_sanitized on two distinct driver
errors. -/
theorem error_broadcast_sanitized_witness :
    freshS.isRunning = false
    ∧ (executeEvent envS 1 false freshS (Except.error "ORA-01013: user requested cancel") 7 3).broadcasts
        = (executeEvent envS 1 false freshS (Except.error "ORA-12170: TNS connect timeout") 7 4).broadcasts :=
  ⟨rfl,
    (error_broadcast_sanitized envS 1 false freshS rfl
      "ORA-01013: user requested cancel" "ORA-12170: TNS connect timeout" 7 3 4).2⟩

/-- Claim C7: updateEventStats issues a durable write exactly when the
status is error, and never lets a persistence failure escape; within
executeEvent a successful run issues no durable write and a failed run
issues exactly the error write, whether or not the write itself fails. -/
theorem error_stats_durable_write {R : Type} (env : ExecEnv R) (eventId : Nat)
    (persistFails : Bool) (d : EventData R) (h : d.isRunning = false) (now dur : Nat) :
    (∀ (pf : Bool) (id t : Nat) (st : String),
        ((updateEventStats pf id t st).attempted ≠ [] ↔ st = "error")
        ∧ (updateEventStats pf id t st).outcome = Except.ok ())
    ∧ (∀ rows : List R,
        (executeEvent env eventId persistFails d (Except.ok rows) now dur).statsWrites = [])
    ∧ (∀ e : String,
        (executeEvent env eventId persistFails d (Except.error e) now dur).statsWrites
          = [{ eventId := eventId, executionTime := dur, status := "error" }]) := by
  refine ⟨?_, ?_, ?_⟩
  · intro pf id t st
    by_cases hst : st = "error"
    · cases pf <;> simp [updateEventStats, statsUpdateExecute, hst]
    · simp [updateEventStats, hst]
  · intro rows
    rw [executeEvent_not_running env eventId persistFails d h]
    simp only [executeEventFinish]
  · intro e
    rw [executeEvent_not_running env eventId persistFails d h]
    simp only [executeEventFinish]
    cases persistFails <;> simp [updateEventStats, statsUpdateExecute]

/-- Witness for error_stats_durable_write with a failing durable
write. -/
theorem error_stats_durable_write_witness :
    freshS.isRunning = false
    ∧ (executeEvent envS 1 true freshS (Except.error "ORA-12170") 7 3).statsWrites
        = [{ eventId := 1, executionTime := 3, status := "error" }] :=
  ⟨rfl, (error_stats_durable_write envS 1 true freshS rfl 7 3).2.2 "ORA-12170"⟩

/-- Counterexample to claim C8 as stated: on wake-from-sleep the first
execution of a source is scheduled at offset i times the stagger delay
plus a random jitter in [0, 2000 ms), not at i times the delay itself;
jitter 1000 is attainable and moves source 0 off its claimed offset. -/
theorem wake_offset_cex :
    (0 : ℚ) ≤ 1000 ∧ (1000 : ℚ) < 2000
    ∧ wakeFirstExecOffset 0 (wakeUpStaggerDelay [cfgS] (defaultMaxStaggerDelay : ℚ)) 1000
        ≠ wakeTimerArmOffset 0 (wakeUpStaggerDelay [cfgS] (defaultMaxStaggerDelay : ℚ)) := by
  refine ⟨by norm_num, by norm_num, ?_⟩
  norm_num [wakeFirstExecOffset, wakeTimerArmOffset]

/-- Claim C8 (amended): both cold start and wake compute the stagger
delay d = max(min(smallestInterval_ms / K, maxStaggerBudget_ms / K),
500 ms); cold start schedules source i's first execution at offset
i * d; wake arms source i's recurring timer at i * d and runs one
refresh execution at i * d plus the random jitter; d never drops below
the 500 ms floor, and with 21 sources of 5 s interval the total span
21 * d exceeds the default 10 s budget. -/
theorem stagger_schedule (configs : List EventConfig) (hne : configs ≠ [])
    (maxStagger : ℚ) :
    staggerDelay configs maxStagger
      = specStaggerDelay ((smallestInterval configs : ℚ) * 1000) (configs.length : ℚ) maxStagger
    ∧ wakeUpStaggerDelay configs maxStagger = staggerDelay configs maxStagger
    ∧ (∀ i : Nat, i < configs.length →
        (coldStartOffsets configs maxStagger)[i]? = some ((i : ℚ) * staggerDelay configs maxStagger))
    ∧ (∀ (i : Nat) (jitter : ℚ), 0 ≤ jitter → jitter < 2000 →
        wakeTimerArmOffset i (wakeUpStaggerDelay configs maxStagger)
            = (i : ℚ) * staggerDelay configs maxStagger
        ∧ wakeFirstExecOffset i (wakeUpStaggerDelay configs maxStagger) jitter
            = (i : ℚ) * staggerDelay configs maxStagger + jitter)
    ∧ 500 ≤ staggerDelay configs maxStagger
    ∧ 21 * staggerDelay manyCfgs (defaultMaxStaggerDelay : ℚ) > (defaultMaxStaggerDelay : ℚ) := by
  refine ⟨rfl, rfl, ?_, ?_, ?_, ?_⟩
  · intro i hi
    rw [coldStartOffsets, List.getElem?_map, List.getElem?_range hi]
    rfl
  · intro i jitter _ _
    exact ⟨rfl, rfl⟩
  · exact le_max_right _ _
  · have h5 : smallestInterval manyCfgs = 5 := by decide
    have hlen : manyCfgs.length = 21 := by decide
    rw [gt_iff_lt, staggerDelay, h5, hlen]
    norm_num [defaultMaxStaggerDelay, max_def, min_def]

/-- Witness for stagger_schedule on a single source. -/
theorem stagger_schedule_witness :
    ([cfgS] : List EventConfig) ≠ []
    ∧ staggerDelay [cfgS] (10000 : ℚ)
        = specStaggerDelay ((smallestInterval [cfgS] : ℚ) * 1000)
            ((([cfgS] : List EventConfig).length : ℚ)) (10000 : ℚ) :=
  ⟨by decide, (stagger_schedule [cfgS] (by decide) (10000 : ℚ)).1⟩

/-- Counterexample to claim C9 as stated: entering sleep mutates the
per-source statistics objects, recording lastSleepTimestamp on every
paused source, so the statistics are not left unchanged. -/
theorem sleep_stats_mutation_cex :
    (fireSleepTimer defaultSleepDelay 0
        (checkSleepMode true defaultSleepDelay 0 0 sleepCexState)).isSleeping = true
    ∧ (fireSleepTimer defaultSleepDelay 0
        (checkSleepMode true defaultSleepDelay 0 0 sleepCexState)).events.map (fun d => d.stats)
      ≠ sleepCexState.events.map (fun d => d.stats) := by decide

/-- Claim C9 (amended): a positive-count evaluation cancels any pending
debounce timer and the controller then never enters sleep while every
further evaluation sees subscribers; a zero-count evaluation arms the
debounce deadline; when the timer fires with the count still zero the
controller sleeps exactly once (later firings and sleep calls are
no-ops), disarming every per-source timer while keeping each source
entry with its config, cache fields and statistics counters unchanged,
except that a lastSleepTimestamp is recorded in the stats of each source
whose timer was armed. -/
theorem sleep_wake_pause {R : Type} (delay : Nat) :
    (∀ s : MgrState R, s.isSleeping = false → ∀ now c : Nat, 0 < c →
        checkSleepMode true delay now c s = { s with sleepDeadline := none })
    ∧ (∀ (s : MgrState R) (tr : List SleepStep), s.isSleeping = false → s.sleepDeadline = none →
        tr.all checkPositive = true →
        (sleepRun true delay s tr).isSleeping = false
        ∧ (sleepRun true delay s tr).sleepDeadline = none)
    ∧ (∀ s : MgrState R, s.isSleeping = false → ∀ now : Nat,
        checkSleepMode true delay now 0 s = { s with sleepDeadline := some (now + delay) })
    ∧ (∀ (s : MgrState R) (t fnow : Nat), s.isSleeping = false → s.sleepDeadline = some t →
        (fireSleepTimer fnow 0 s).isSleeping = true
        ∧ (fireSleepTimer fnow 0 s).events = s.events.map (sleepTransform fnow)
        ∧ (∀ later c, fireSleepTimer later c (fireSleepTimer fnow 0 s) = fireSleepTimer fnow 0 s)
        ∧ (∀ later, goToSleep later (fireSleepTimer fnow 0 s) = fireSleepTimer fnow 0 s))
    ∧ (∀ (fnow : Nat) (d : EventData R),
        (sleepTransform fnow d).timer = false
        ∧ (sleepTransform fnow d).config = d.config
        ∧ (sleepTransform fnow d).cachedData = d.cachedData
        ∧ (sleepTransform fnow d).cacheTimestamp = d.cacheTimestamp
        ∧ (sleepTransform fnow d).cacheSize = d.cacheSize
        ∧ (sleepTransform fnow d).cacheTruncated = d.cacheTruncated
        ∧ (sleepTransform fnow d).stats.totalExecutions = d.stats.totalExecutions
        ∧ (sleepTransform fnow d).stats.successCount = d.stats.successCount
        ∧ (sleepTransform fnow d).stats.errorCount = d.stats.errorCount
        ∧ (sleepTransform fnow d).stats.skippedCount = d.stats.skippedCount
        ∧ (sleepTransform fnow d).stats.broadcasts = d.stats.broadcasts
        ∧ (sleepTransform fnow d).stats.lastExecutionTime = d.stats.lastExecutionTime
        ∧ (sleepTransform fnow d).stats.lastExecutionStatus = d.stats.lastExecutionStatus
        ∧ (sleepTransform fnow d).stats.lastExecutionTimestamp = d.stats.lastExecutionTimestamp
        ∧ (d.timer = true → (sleepTransform fnow d).stats.lastSleepTimestamp = some fnow)) := by
  refine ⟨?_, ?_, ?_, ?_, ?_⟩
  · rintro ⟨sl, dl, evs⟩ h now c hc
    subst h
    cases dl <;> simp [checkSleepMode, hc, Nat.pos_iff_ne_zero.mp hc]
  · intro s tr
    induction tr generalizing s with
    | nil => intro h hd _; exact ⟨h, hd⟩
    | cons step rest ih =>
        intro h hd hall
        simp only [List.all_cons, Bool.and_eq_true] at hall
        obtain ⟨hstep, hrest⟩ := hall
        have hnext : (sleepStep true delay s step).isSleeping = false
            ∧ (sleepStep true delay s step).sleepDeadline = none := by
          cases step with
          | check now c =>
              simp only [checkPositive, decide_eq_true_eq] at hstep
              obtain ⟨sl, dl, evs⟩ := s
              subst h
              simp only at hd
              subst hd
              simp [sleepStep, checkSleepMode, hstep, Nat.pos_iff_ne_zero.mp hstep]
          | fire now c =>
              obtain ⟨sl, dl, evs⟩ := s
              subst h
              simp only at hd
              subst hd
              simp [sleepStep, fireSleepTimer]
        exact ih _ hnext.1 hnext.2 hrest
  · rintro ⟨sl, dl, evs⟩ h now
    subst h
    simp [checkSleepMode]
  · rintro ⟨sl, dl, evs⟩ t fnow h hd
    subst h
    simp only at hd
    subst hd
    refine ⟨rfl, rfl, ?_, ?_⟩
    · intro later c
      simp [fireSleepTimer, goToSleep]
    · intro later
      simp [fireSleepTimer, goToSleep]
  · intro fnow d
    by_cases ht : d.timer <;> simp [sleepTransform, ht]

/-- Witness for sleep_wake_pause: a zero-count evaluation on a concrete
awake state arms the debounce deadline. -/
theorem sleep_wake_pause_witness :
    sleepCexState.isSleeping = false
    ∧ checkSleepMode true defaultSleepDelay 0 0 sleepCexState
        = { sleepCexState with sleepDeadline := some (0 + defaultSleepDelay) } :=
  ⟨rfl, (sleep_wake_pause (R := String) defaultSleepDelay).2.2.1 sleepCexState rfl 0⟩

/-- Claim C10: when a changed successful result exceeds the cache
ceiling, the broadcast still carries the full row list and the full row
count, while the cache keeps only the truncated 100-row prefix. -/
theorem broadcast_bypasses_cache_ceiling {R : Type} (env : ExecEnv R) (eventId : Nat)
    (persistFails : Bool) (d : EventData R) (h : d.isRunning = false)
    (rows : List R) (now dur : Nat)
    (hch : d.lastDataHash ≠ some (env.dataHash rows))
    (hbig : env.maxSizeBytes < (env.serialize rows).utf8ByteSize) :
    (executeEvent env eventId persistFails d (Except.ok rows) now dur).broadcasts
      = [Broadcast.success
          { eventName := d.config.eventName, data := rows, rowCount := rows.length,
            timestamp := now, executionTime := dur }]
    ∧ (executeEvent env eventId persistFails d (Except.ok rows) now dur).d.cachedData
        = some (rows.take 100)
    ∧ (executeEvent env eventId persistFails d (Except.ok rows) now dur).d.cacheTruncated = true := by
  rw [executeEvent_not_running env eventId persistFails d h]
  simp only [executeEventFinish]
  simp [hch, hbig]

/-- Witness for broadcast_bypasses_cache_ceiling under a zero-byte
ceiling. -/
theorem broadcast_bypasses_cache_ceiling_witness :
    (freshS.isRunning = false ∧ freshS.lastDataHash ≠ some (envS0.dataHash ["r1"])
      ∧ envS0.maxSizeBytes < (envS0.serialize ["r1"]).utf8ByteSize)
    ∧ (executeEvent envS0 1 false freshS (Except.ok ["r1"]) 7 3).broadcasts
        = [Broadcast.success
            { eventName := freshS.config.eventName, data := ["r1"], rowCount := 1,
              timestamp := 7, executionTime := 3 }]
    ∧ (executeEvent envS0 1 false freshS (Except.ok ["r1"]) 7 3).d.cacheTruncated = true :=
  ⟨⟨rfl, by decide, by decide⟩,
    (broadcast_bypasses_cache_ceiling envS0 1 false freshS rfl ["r1"] 7 3 (by decide) (by decide)).1,
    (broadcast_bypasses_cache_ceiling envS0 1 false freshS rfl ["r1"] 7 3 (by decide) (by decide)).2.2⟩

end TPKS
